import Mathlib

/-!
Verification development for the `pg-migration` schema-transfer tool
(`pkg/schema/schema.go`, `pkg/config/config.go`).

The Go code is shallowly embedded: pure text processing becomes functions on
`List Char`, the orchestration of external processes becomes explicit
branching over an abstract `World` of step outcomes together with an event
trace, and the server-side reset script becomes a function from an abstract
catalog of database objects to the list of DROP statements the procedural
block issues.
-/

namespace PgMigration

/-! ## Text rewriting (processSchemaFile, RestoreSchemaFromReader)

Go's `strings.Replace(s, old, new, -1)` replaces all non-overlapping
occurrences of `old` in `s`, scanning left to right, and continues scanning
in the input after each matched occurrence (the replacement text is not
rescanned within the same call).  All patterns used by the program are
non-empty, and `replaceF`/`replaceAll` below model exactly that behaviour
for non-empty patterns: fuel `s.length` suffices because every step of the
scan consumes at least one character of the remaining input. -/

/-- One fuel-indexed step of the left-to-right scan of `strings.Replace`. -/
def replaceF : Nat → List Char → List Char → List Char → List Char
  | 0, s, _, _ => s
  | fuel + 1, s, old, new =>
    match s with
    | [] => []
    | c :: rest =>
      if old.isPrefixOf (c :: rest) then
        new ++ replaceF fuel ((c :: rest).drop old.length) old new
      else
        c :: replaceF fuel rest old new

/-- Go `strings.Replace s old new (-1)` for a non-empty pattern `old`. -/
def replaceAll (s old new : List Char) : List Char :=
  replaceF s.length s old new

/-- Go `strings.Contains s pat` (substring occurrence), as used to reason
about which rewrite rules can fire. -/
def containsSub (pat : List Char) : List Char → Bool
  | [] => pat.isPrefixOf []
  | c :: rest => pat.isPrefixOf (c :: rest) || containsSub pat rest

/-- `processSchemaFile` (schema.go:290-355): the six literal replacements,
in source order, applied to the whole document. -/
def processSchemaFile (s : List Char) : List Char :=
  let s1 := replaceAll s "CREATE SCHEMA ".data "CREATE SCHEMA IF NOT EXISTS ".data
  let s2 := replaceAll s1 "CREATE FUNCTION ".data "CREATE OR REPLACE FUNCTION ".data
  let s3 := replaceAll s2 "CREATE TABLE ".data "CREATE TABLE IF NOT EXISTS ".data
  let s4 := replaceAll s3 "CREATE INDEX ".data "CREATE INDEX IF NOT EXISTS ".data
  let s5 := replaceAll s4 "CREATE SEQUENCE ".data "CREATE SEQUENCE IF NOT EXISTS ".data
  let s6 := replaceAll s5 "CREATE VIEW ".data "CREATE OR REPLACE VIEW ".data
  s6

/-- The inline rewrite inside `RestoreSchemaFromReader` (schema.go:408-413):
the same six `strings.Replace` calls, in the same order. -/
def restoreSchemaFromReaderRewrite (s : List Char) : List Char :=
  let c1 := replaceAll s "CREATE SCHEMA ".data "CREATE SCHEMA IF NOT EXISTS ".data
  let c2 := replaceAll c1 "CREATE FUNCTION ".data "CREATE OR REPLACE FUNCTION ".data
  let c3 := replaceAll c2 "CREATE TABLE ".data "CREATE TABLE IF NOT EXISTS ".data
  let c4 := replaceAll c3 "CREATE INDEX ".data "CREATE INDEX IF NOT EXISTS ".data
  let c5 := replaceAll c4 "CREATE SEQUENCE ".data "CREATE SEQUENCE IF NOT EXISTS ".data
  let c6 := replaceAll c5 "CREATE VIEW ".data "CREATE OR REPLACE VIEW ".data
  c6

/-- The six rewrite rules as an ordered table, for stating that
`processSchemaFile` is exactly this sequence of literal substitutions. -/
def rewriteRules : List (List Char × List Char) :=
  [("CREATE SCHEMA ".data, "CREATE SCHEMA IF NOT EXISTS ".data),
   ("CREATE FUNCTION ".data, "CREATE OR REPLACE FUNCTION ".data),
   ("CREATE TABLE ".data, "CREATE TABLE IF NOT EXISTS ".data),
   ("CREATE INDEX ".data, "CREATE INDEX IF NOT EXISTS ".data),
   ("CREATE SEQUENCE ".data, "CREATE SEQUENCE IF NOT EXISTS ".data),
   ("CREATE VIEW ".data, "CREATE OR REPLACE VIEW ".data)]

/-- A pattern that occurs nowhere in the scanned text is never replaced:
the scan walks over every character unchanged. -/
theorem replaceF_eq_of_not_contains (old new : List Char) :
    ∀ (fuel : Nat) (s : List Char),
      containsSub old s = false → replaceF fuel s old new = s := by
  intro fuel
  induction fuel with
  | zero => intro s _; rfl
  | succ n ih =>
    intro s h
    cases s with
    | nil => rfl
    | cons c rest =>
      simp only [containsSub, Bool.or_eq_false_iff] at h
      simp only [replaceF, h.1, Bool.false_eq_true, if_false]
      exact congrArg (c :: ·) (ih rest h.2)

/-- `strings.Replace` leaves a text without any occurrence of the pattern
unchanged. -/
theorem replaceAll_eq_of_not_contains (s old new : List Char)
    (h : containsSub old s = false) : replaceAll s old new = s :=
  replaceF_eq_of_not_contains old new s.length s h

/-- A text containing none of the six bare `CREATE <OBJECT> ` patterns
passes through `processSchemaFile` unchanged. -/
theorem processSchemaFile_eq_of_no_bare_create (s : List Char)
    (h : ∀ r ∈ rewriteRules, containsSub r.1 s = false) :
    processSchemaFile s = s := by
  have h1 := replaceAll_eq_of_not_contains s "CREATE SCHEMA ".data
    "CREATE SCHEMA IF NOT EXISTS ".data
    (h ("CREATE SCHEMA ".data, "CREATE SCHEMA IF NOT EXISTS ".data) (by simp [rewriteRules]))
  have h2 := replaceAll_eq_of_not_contains s "CREATE FUNCTION ".data
    "CREATE OR REPLACE FUNCTION ".data
    (h ("CREATE FUNCTION ".data, "CREATE OR REPLACE FUNCTION ".data) (by simp [rewriteRules]))
  have h3 := replaceAll_eq_of_not_contains s "CREATE TABLE ".data
    "CREATE TABLE IF NOT EXISTS ".data
    (h ("CREATE TABLE ".data, "CREATE TABLE IF NOT EXISTS ".data) (by simp [rewriteRules]))
  have h4 := replaceAll_eq_of_not_contains s "CREATE INDEX ".data
    "CREATE INDEX IF NOT EXISTS ".data
    (h ("CREATE INDEX ".data, "CREATE INDEX IF NOT EXISTS ".data) (by simp [rewriteRules]))
  have h5 := replaceAll_eq_of_not_contains s "CREATE SEQUENCE ".data
    "CREATE SEQUENCE IF NOT EXISTS ".data
    (h ("CREATE SEQUENCE ".data, "CREATE SEQUENCE IF NOT EXISTS ".data) (by simp [rewriteRules]))
  have h6 := replaceAll_eq_of_not_contains s "CREATE VIEW ".data
    "CREATE OR REPLACE VIEW ".data
    (h ("CREATE VIEW ".data, "CREATE OR REPLACE VIEW ".data) (by simp [rewriteRules]))
  simp only [processSchemaFile]
  rw [h1, h2, h3, h4, h5, h6]

/-- C1 (counterexample): rewriting is NOT idempotent as claimed.  The
`IF NOT EXISTS` form still begins with the bare `CREATE TABLE ` prefix, so a
second rewrite inserts a duplicate `IF NOT EXISTS `; in particular an
already-rewritten text does not pass through unchanged. -/
theorem rewrite_not_idempotent_cex :
    processSchemaFile (processSchemaFile "CREATE TABLE t (x int);".data)
      ≠ processSchemaFile "CREATE TABLE t (x int);".data
    ∧ processSchemaFile "CREATE TABLE IF NOT EXISTS t (x int);".data
      ≠ "CREATE TABLE IF NOT EXISTS t (x int);".data := by
  decide

/-- C1 (amended): any input containing none of the six bare
`CREATE <OBJECT> ` patterns passes through unchanged (in particular the
rewrite is idempotent there); the function and view rules converge after one
rewrite on their statements (the `OR REPLACE` forms no longer contain their
bare prefix); but for schema, table, index and sequence the rewritten
`IF NOT EXISTS` forms re-match the bare prefix, so a second rewrite inserts
a duplicate `IF NOT EXISTS `. -/
theorem rewrite_idempotency_amended :
    (∀ s : List Char, (∀ r ∈ rewriteRules, containsSub r.1 s = false) →
        processSchemaFile (processSchemaFile s) = processSchemaFile s
          ∧ processSchemaFile s = s)
    ∧ processSchemaFile [] = []
    ∧ processSchemaFile
        (processSchemaFile "CREATE FUNCTION f(i integer) RETURNS integer;".data)
        = processSchemaFile "CREATE FUNCTION f(i integer) RETURNS integer;".data
    ∧ processSchemaFile (processSchemaFile "CREATE VIEW v AS SELECT 1;".data)
        = processSchemaFile "CREATE VIEW v AS SELECT 1;".data
    ∧ processSchemaFile (processSchemaFile "CREATE SCHEMA app;".data)
        = "CREATE SCHEMA IF NOT EXISTS IF NOT EXISTS app;".data
    ∧ processSchemaFile (processSchemaFile "CREATE TABLE tbl (x int);".data)
        = "CREATE TABLE IF NOT EXISTS IF NOT EXISTS tbl (x int);".data
    ∧ processSchemaFile (processSchemaFile "CREATE INDEX idx ON tbl (x);".data)
        = "CREATE INDEX IF NOT EXISTS IF NOT EXISTS idx ON tbl (x);".data
    ∧ processSchemaFile (processSchemaFile "CREATE SEQUENCE sq;".data)
        = "CREATE SEQUENCE IF NOT EXISTS IF NOT EXISTS sq;".data := by
  refine ⟨fun s h => ?_, by decide, by decide, by decide, by decide, by decide,
    by decide, by decide⟩
  have hs := processSchemaFile_eq_of_no_bare_create s h
  rw [hs]
  exact ⟨hs, rfl⟩

/-- Witness for the universally quantified part of the amended C1 theorem,
at a concrete pattern-free input. -/
theorem rewrite_idempotency_amended_witness :
    processSchemaFile (processSchemaFile "ALTER TABLE t ADD COLUMN y int;".data)
      = processSchemaFile "ALTER TABLE t ADD COLUMN y int;".data
    ∧ processSchemaFile "ALTER TABLE t ADD COLUMN y int;".data
      = "ALTER TABLE t ADD COLUMN y int;".data :=
  rewrite_idempotency_amended.1 "ALTER TABLE t ADD COLUMN y int;".data (by decide)

/-- C2: `processSchemaFile` is exactly the six literal, non-contextual
replacements of `rewriteRules`, folded over the whole document in that fixed
order; a document containing none of the six bare patterns is left entirely
unchanged; and the substitution also fires inside SQL comments and string
literals (demonstrated on a line comment and on a dollar-quoted literal). -/
theorem rewriter_is_six_ordered_literal_replacements :
    (∀ s : List Char,
        processSchemaFile s
          = rewriteRules.foldl (fun t r => replaceAll t r.1 r.2) s)
    ∧ (∀ s : List Char, (∀ r ∈ rewriteRules, containsSub r.1 s = false) →
        processSchemaFile s = s)
    ∧ processSchemaFile "-- note: CREATE TABLE x happens later".data
        = "-- note: CREATE TABLE IF NOT EXISTS x happens later".data
    ∧ processSchemaFile "SELECT $$CREATE VIEW v AS SELECT 1$$;".data
        = "SELECT $$CREATE OR REPLACE VIEW v AS SELECT 1$$;".data :=
  ⟨fun _ => rfl, processSchemaFile_eq_of_no_bare_create, by decide, by decide⟩

/-- Witness for the hypotheses of the C2 theorem at concrete inputs. -/
theorem rewriter_is_six_ordered_literal_replacements_witness :
    processSchemaFile "SELECT 1;".data = "SELECT 1;".data :=
  rewriter_is_six_ordered_literal_replacements.2.1 "SELECT 1;".data (by decide)

/-- C6: the two literal scenarios from the spec, character for character. -/
theorem rewrite_literal_scenarios :
    processSchemaFile
        "CREATE TABLE public.customers (id SERIAL PRIMARY KEY);".data
      = "CREATE TABLE IF NOT EXISTS public.customers (id SERIAL PRIMARY KEY);".data
    ∧ processSchemaFile "CREATE VIEW order_summary AS SELECT 1;".data
      = "CREATE OR REPLACE VIEW order_summary AS SELECT 1;".data := by
  decide

/-- C10: the inline rewrite of `RestoreSchemaFromReader` and
`processSchemaFile` are the same function from input text to rewritten
text (both are the same six replacements in the same order). -/
theorem restore_reader_rewrite_equals_processSchemaFile :
    ∀ s : List Char, restoreSchemaFromReaderRewrite s = processSchemaFile s :=
  fun _ => rfl

/-! ## Connection configuration (pkg/config/config.go) -/

/-- `DBConfig` (config.go:11-18). Go `int` is modelled as `Int`. -/
structure DBConfig where
  Host : String
  Port : Int
  User : String
  Password : String
  Database : String
  SSLMode : String

/-- `ConnectionString` (config.go:21-29): key-value driver form, with the
SSL mode defaulting to `require` when the field is empty. -/
def ConnectionString (c : DBConfig) : String :=
  let sslMode := if c.SSLMode = "" then "require" else c.SSLMode
  "host=" ++ c.Host ++ " port=" ++ toString c.Port ++ " user=" ++ c.User
    ++ " password=" ++ c.Password ++ " dbname=" ++ c.Database
    ++ " sslmode=" ++ sslMode

/-- `PgDumpConnectionString` (config.go:32-35): URI form. -/
def PgDumpConnectionString (c : DBConfig) : String :=
  "postgresql://" ++ c.User ++ ":" ++ c.Password ++ "@" ++ c.Host ++ ":"
    ++ toString c.Port ++ "/" ++ c.Database

/-- C7: `ConnectionString` yields exactly the key-value form, with the SSL
mode taken from the descriptor and defaulting to `require` when that field
is the empty string, and `PgDumpConnectionString` yields exactly the URI
form. -/
theorem connection_string_formats :
    ∀ c : DBConfig,
      (c.SSLMode = "" →
        ConnectionString c
          = "host=" ++ c.Host ++ " port=" ++ toString c.Port ++ " user="
              ++ c.User ++ " password=" ++ c.Password ++ " dbname="
              ++ c.Database ++ " sslmode=" ++ "require")
      ∧ (c.SSLMode ≠ "" →
        ConnectionString c
          = "host=" ++ c.Host ++ " port=" ++ toString c.Port ++ " user="
              ++ c.User ++ " password=" ++ c.Password ++ " dbname="
              ++ c.Database ++ " sslmode=" ++ c.SSLMode)
      ∧ PgDumpConnectionString c
          = "postgresql://" ++ c.User ++ ":" ++ c.Password ++ "@" ++ c.Host
              ++ ":" ++ toString c.Port ++ "/" ++ c.Database := by
  intro c
  refine ⟨fun h => ?_, fun h => ?_, rfl⟩
  · simp [ConnectionString, h]
  · simp [ConnectionString, h]

/-- Witness for the C7 theorem at concrete descriptors: the default and the
explicit SSL mode branch, evaluated to literal strings. -/
theorem connection_string_formats_witness :
    ConnectionString ⟨"h1", 5432, "u1", "pw1", "db1", ""⟩
        = "host=h1 port=5432 user=u1 password=pw1 dbname=db1 sslmode=require"
    ∧ ConnectionString ⟨"h2", 5433, "u2", "pw2", "db2", "verify-full"⟩
        = "host=h2 port=5433 user=u2 password=pw2 dbname=db2 sslmode=verify-full"
    ∧ PgDumpConnectionString ⟨"h1", 5432, "u1", "pw1", "db1", ""⟩
        = "postgresql://u1:pw1@h1:5432/db1" := by
  refine ⟨?_, ?_, ?_⟩
  · have h := (connection_string_formats ⟨"h1", 5432, "u1", "pw1", "db1", ""⟩).1 rfl
    simpa using h
  · have h := (connection_string_formats
      ⟨"h2", 5433, "u2", "pw2", "db2", "verify-full"⟩).2.1 (by decide)
    simpa using h
  · exact (connection_string_formats ⟨"h1", 5432, "u1", "pw1", "db1", ""⟩).2.2

/-! ## External process invocations (schema.go) -/

/-- The `pg_dump` argument vector built in `dumpSchema` (schema.go:195-204). -/
def dumpArgs (c : DBConfig) (dumpFilePath : String) : List String :=
  ["-h", c.Host,
   "-p", toString c.Port,
   "-U", c.User,
   "-d", c.Database,
   "--schema-only",
   "--no-owner",
   "--no-privileges",
   "-f", dumpFilePath]

/-- The `psql` argument vector built in `dropExistingObjects`
(schema.go:149-155); `scriptPath` is the temp file holding the drop
script. -/
def dropPsqlArgs (c : DBConfig) (scriptPath : String) : List String :=
  ["-h", c.Host,
   "-p", toString c.Port,
   "-U", c.User,
   "-d", c.Database,
   "-f", scriptPath]

/-- The `psql` argument vector built in `restoreSchema`
(schema.go:260-266); the script arrives on standard input. -/
def restorePsqlArgs (c : DBConfig) : List String :=
  ["-h", c.Host,
   "-p", toString c.Port,
   "-U", c.User,
   "-d", c.Database,
   "-v", "ON_ERROR_STOP=1"]

/-- The child-process environment built identically at all three invocation
sites (schema.go:160-165, 209-214, 272-277): the parent environment plus a
`PGPASSWORD` entry, plus a `PGSSLMODE` entry when an SSL mode is set. -/
def pgEnv (osEnviron : List String) (c : DBConfig) : List String :=
  (osEnviron ++ ["PGPASSWORD=" ++ c.Password])
    ++ (if c.SSLMode ≠ "" then ["PGSSLMODE=" ++ c.SSLMode] else [])

/-- C8: none of the three argument vectors depends on the password field
(so the password never appears on a command line via that field); the
password reaches the child only as the `PGPASSWORD` environment entry; and
the dump invocation always carries `--schema-only`, `--no-owner` and
`--no-privileges`. -/
theorem external_invocations_hide_password :
    (∀ (c : DBConfig) (p path : String),
        dumpArgs { c with Password := p } path = dumpArgs c path
        ∧ dropPsqlArgs { c with Password := p } path = dropPsqlArgs c path
        ∧ restorePsqlArgs { c with Password := p } = restorePsqlArgs c)
    ∧ (∀ (osEnviron : List String) (c : DBConfig),
        ("PGPASSWORD=" ++ c.Password) ∈ pgEnv osEnviron c)
    ∧ (∀ (c : DBConfig) (path : String),
        "--schema-only" ∈ dumpArgs c path
        ∧ "--no-owner" ∈ dumpArgs c path
        ∧ "--no-privileges" ∈ dumpArgs c path) := by
  refine ⟨fun c p path => ⟨rfl, rfl, rfl⟩, fun osEnviron c => ?_,
    fun c path => ⟨?_, ?_, ?_⟩⟩
  · simp [pgEnv]
  · simp [dumpArgs]
  · simp [dumpArgs]
  · simp [dumpArgs]

/-! ## The destructive reset script (dropExistingObjects, schema.go:65-175)

`dropExistingObjects` submits one procedural `DO $$ ... $$` block.  The
block is embedded as a function from an abstract snapshot of the server's
catalogs to the ordered list of DROP statements the block EXECUTEs: each
`FOR ... LOOP` becomes a filter over the corresponding catalog followed by a
map to the statement it builds.  Catalog rows carry exactly the columns the
block's queries read. -/

/-- The object kinds the reset block drops, in no particular order. -/
inductive ObjKind
  | schemaObj
  | functionObj
  | tableObj
  | compositeTypeObj
  | sequenceObj
  | viewObj
deriving DecidableEq

/-- The position of each kind's loop inside the block (source order). -/
def kindIdx : ObjKind → Nat
  | .schemaObj => 0
  | .functionObj => 1
  | .tableObj => 2
  | .compositeTypeObj => 3
  | .sequenceObj => 4
  | .viewObj => 5

/-- One EXECUTEd `DROP ...` statement: the kind of object, the object name,
the argument-type signature (functions only), and whether the statement
ends in `CASCADE`. -/
structure DropStmt where
  kind : ObjKind
  name : String
  args : Option String
  cascade : Bool
deriving DecidableEq

/-- A snapshot of the server catalogs the block's queries read:
`information_schema.schemata` (schema_name); `pg_proc` joined with
`pg_namespace` (nspname, proname, argtype signature); `pg_tables`
(schemaname, tablename); `pg_type` joined with `pg_namespace`
(nspname, typname, typtype); `pg_class` joined with `pg_namespace`
(nspname, relname, relkind); `pg_views` (schemaname, viewname). -/
structure Catalog where
  schemata : List String
  procs : List (String × String × String)
  tables : List (String × String)
  types : List (String × String × Char)
  classes : List (String × String × Char)
  views : List (String × String)

/-- SQL `name LIKE 'pg_%'`: `_` matches exactly one character and `%` any
suffix, so the pattern matches names of length at least three that start
with `pg`. -/
def likePgUnderscorePercent : List Char → Bool
  | 'p' :: 'g' :: _ :: _ => true
  | _ => false

/-- The ordered list of DROP statements the `DO $$ ... $$` block EXECUTEs
against a catalog snapshot (schema.go:67-133): schemas not LIKE `pg_%` and
distinct from `public` and `information_schema`, then functions in
`public` with their argument signatures, then tables, composite types
(`typtype = 'c'`), sequences (`relkind = 'S'`) and views in `public`;
every statement the block builds ends in `CASCADE`. -/
def resetStatements (cat : Catalog) : List DropStmt :=
  (cat.schemata.filter (fun n =>
      !likePgUnderscorePercent n.data
        && n != "public" && n != "information_schema")).map
    (fun n => ⟨.schemaObj, n, none, true⟩)
  ++ (cat.procs.filter (fun r => r.1 == "public")).map
    (fun r => ⟨.functionObj, r.2.1, some r.2.2, true⟩)
  ++ (cat.tables.filter (fun r => r.1 == "public")).map
    (fun r => ⟨.tableObj, r.2, none, true⟩)
  ++ (cat.types.filter (fun r => r.1 == "public" && r.2.2 == 'c')).map
    (fun r => ⟨.compositeTypeObj, r.2.1, none, true⟩)
  ++ (cat.classes.filter (fun r => r.1 == "public" && r.2.2 == 'S')).map
    (fun r => ⟨.sequenceObj, r.2.1, none, true⟩)
  ++ (cat.views.filter (fun r => r.1 == "public")).map
    (fun r => ⟨.viewObj, r.2, none, true⟩)

/-- A relation holding for all pairs drawn from a list holds pairwise. -/
theorem pairwise_of_forall_rel {α : Type} {R : α → α → Prop} :
    ∀ l : List α, (∀ a ∈ l, ∀ b ∈ l, R a b) → l.Pairwise R := by
  intro l h
  induction l with
  | nil => exact .nil
  | cons x xs ih =>
    refine .cons (fun b hb => h x (by simp) b (by simp [hb])) ?_
    exact ih fun a ha b hb => h a (by simp [ha]) b (by simp [hb])

/-- Appending a block of statements whose kind indices are all `≤ k`
before a block whose kind indices are all `≥ k` preserves sortedness by
kind index. -/
theorem pairwise_kind_le_append (k : Nat) (l1 l2 : List DropStmt)
    (h1 : ∀ a ∈ l1, kindIdx a.kind ≤ k) (h2 : ∀ b ∈ l2, k ≤ kindIdx b.kind)
    (p1 : l1.Pairwise (fun a b => kindIdx a.kind ≤ kindIdx b.kind))
    (p2 : l2.Pairwise (fun a b => kindIdx a.kind ≤ kindIdx b.kind)) :
    (l1 ++ l2).Pairwise
      (fun a b : DropStmt => kindIdx a.kind ≤ kindIdx b.kind) := by
  rw [List.pairwise_append]
  exact ⟨p1, p2, fun a ha b hb => Nat.le_trans (h1 a ha) (h2 b hb)⟩

/-- A mapped block whose image has a single kind is sorted by kind index. -/
theorem pairwise_kind_of_map {β : Type} (g : β → DropStmt) (l : List β)
    (h : ∀ x y : β, kindIdx (g x).kind ≤ kindIdx (g y).kind) :
    (l.map g).Pairwise
      (fun a b : DropStmt => kindIdx a.kind ≤ kindIdx b.kind) := by
  apply pairwise_of_forall_rel
  intro a ha b hb
  obtain ⟨x, -, rfl⟩ := List.mem_map.1 ha
  obtain ⟨y, -, rfl⟩ := List.mem_map.1 hb
  exact h x y

/-- Every element of a mapped block whose image has a single kind has that
kind's index. -/
theorem kind_of_mem_map {β : Type} (g : β → DropStmt) (l : List β) (k : Nat)
    (h : ∀ x : β, kindIdx (g x).kind = k) :
    ∀ a ∈ l.map g, kindIdx a.kind = k := by
  intro a ha
  obtain ⟨x, -, rfl⟩ := List.mem_map.1 ha
  exact h x

/-- C5: for every catalog snapshot, the single reset block's statements are
grouped in the source order schemas, functions, tables, composite types,
sequences, views; every statement carries CASCADE; the schema drops are
exactly the schemas that are not `public`, not `information_schema` and do
not match `pg_%`; the function drops are exactly the `public` functions
with their argument signatures; and the table/type/sequence/view drops are
exactly the `public` tables, the `public` composite types (`typtype 'c'`
only), the `public` sequences and the `public` views. -/
theorem reset_script_structure :
    ∀ cat : Catalog,
      List.Pairwise (fun a b : DropStmt => kindIdx a.kind ≤ kindIdx b.kind)
        (resetStatements cat)
      ∧ (∀ s ∈ resetStatements cat, s.cascade = true)
      ∧ (∀ n : String,
          (⟨.schemaObj, n, none, true⟩ : DropStmt) ∈ resetStatements cat
            ↔ n ∈ cat.schemata ∧ likePgUnderscorePercent n.data = false
                ∧ n ≠ "public" ∧ n ≠ "information_schema")
      ∧ (∀ n a : String,
          (⟨.functionObj, n, some a, true⟩ : DropStmt) ∈ resetStatements cat
            ↔ ("public", n, a) ∈ cat.procs)
      ∧ (∀ n : String,
          (⟨.tableObj, n, none, true⟩ : DropStmt) ∈ resetStatements cat
            ↔ ("public", n) ∈ cat.tables)
      ∧ (∀ n : String,
          (⟨.compositeTypeObj, n, none, true⟩ : DropStmt) ∈ resetStatements cat
            ↔ ("public", n, 'c') ∈ cat.types)
      ∧ (∀ n : String,
          (⟨.sequenceObj, n, none, true⟩ : DropStmt) ∈ resetStatements cat
            ↔ ("public", n, 'S') ∈ cat.classes)
      ∧ (∀ n : String,
          (⟨.viewObj, n, none, true⟩ : DropStmt) ∈ resetStatements cat
            ↔ ("public", n) ∈ cat.views) := by
  intro cat
  have lb : ∀ (k : Nat) {β : Type} (g : β → DropStmt) (l : List β),
      (∀ x : β, k ≤ kindIdx (g x).kind) →
      ∀ a ∈ l.map g, k ≤ kindIdx a.kind := by
    intro k β g l hg a ha
    obtain ⟨x, -, rfl⟩ := List.mem_map.1 ha
    exact hg x
  have lbApp : ∀ (k : Nat) (l1 l2 : List DropStmt),
      (∀ a ∈ l1, k ≤ kindIdx a.kind) → (∀ a ∈ l2, k ≤ kindIdx a.kind) →
      ∀ a ∈ l1 ++ l2, k ≤ kindIdx a.kind := by
    intro k l1 l2 h1 h2 a ha
    rcases List.mem_append.1 ha with h | h
    exacts [h1 a h, h2 a h]
  have ub : ∀ (k : Nat) {β : Type} (g : β → DropStmt) (l : List β),
      (∀ x : β, kindIdx (g x).kind ≤ k) →
      ∀ a ∈ l.map g, kindIdx a.kind ≤ k := by
    intro k β g l hg a ha
    obtain ⟨x, -, rfl⟩ := List.mem_map.1 ha
    exact hg x
  have ubApp : ∀ (k : Nat) (l1 l2 : List DropStmt),
      (∀ a ∈ l1, kindIdx a.kind ≤ k) → (∀ a ∈ l2, kindIdx a.kind ≤ k) →
      ∀ a ∈ l1 ++ l2, kindIdx a.kind ≤ k := by
    intro k l1 l2 h1 h2 a ha
    rcases List.mem_append.1 ha with h | h
    exacts [h1 a h, h2 a h]
  refine ⟨?_, ?_, ?_, ?_, ?_, ?_, ?_, ?_⟩
  · unfold resetStatements
    refine pairwise_kind_le_append 5 _ _
      (ubApp 5 _ _ (ubApp 5 _ _ (ubApp 5 _ _ (ubApp 5 _ _
        (ub 5 _ _ fun _ => ?_) (ub 5 _ _ fun _ => ?_))
        (ub 5 _ _ fun _ => ?_)) (ub 5 _ _ fun _ => ?_))
        (ub 5 _ _ fun _ => ?_))
      (lb 5 _ _ fun _ => ?_)
      (pairwise_kind_le_append 4 _ _
        (ubApp 4 _ _ (ubApp 4 _ _ (ubApp 4 _ _
          (ub 4 _ _ fun _ => ?_) (ub 4 _ _ fun _ => ?_))
          (ub 4 _ _ fun _ => ?_)) (ub 4 _ _ fun _ => ?_))
        (lb 4 _ _ fun _ => ?_)
        (pairwise_kind_le_append 3 _ _
          (ubApp 3 _ _ (ubApp 3 _ _
            (ub 3 _ _ fun _ => ?_) (ub 3 _ _ fun _ => ?_))
            (ub 3 _ _ fun _ => ?_))
          (lb 3 _ _ fun _ => ?_)
          (pairwise_kind_le_append 2 _ _
            (ubApp 2 _ _ (ub 2 _ _ fun _ => ?_) (ub 2 _ _ fun _ => ?_))
            (lb 2 _ _ fun _ => ?_)
            (pairwise_kind_le_append 1 _ _
              (ub 1 _ _ fun _ => ?_)
              (lb 1 _ _ fun _ => ?_)
              (pairwise_kind_of_map _ _ fun _ _ => ?_)
              (pairwise_kind_of_map _ _ fun _ _ => ?_))
            (pairwise_kind_of_map _ _ fun _ _ => ?_))
          (pairwise_kind_of_map _ _ fun _ _ => ?_))
        (pairwise_kind_of_map _ _ fun _ _ => ?_))
      (pairwise_kind_of_map _ _ fun _ _ => ?_)
    all_goals simp [kindIdx]
  · intro s hs
    simp only [resetStatements, List.mem_append, List.mem_map] at hs
    rcases hs with ((((h | h) | h) | h) | h) | h <;>
      obtain ⟨x, -, rfl⟩ := h <;> rfl
  · intro n
    simp [resetStatements, List.mem_append, List.mem_map, List.mem_filter,
      and_assoc]
    constructor
    · rintro ⟨x, hx, h1, h2, h3, rfl⟩
      exact ⟨hx, h1, h2, h3⟩
    · rintro ⟨hx, h1, h2, h3⟩
      exact ⟨n, hx, h1, h2, h3, rfl⟩
  · intro n a
    simp [resetStatements, List.mem_append, List.mem_map, List.mem_filter,
      Prod.ext_iff, and_assoc]
    constructor
    · rintro ⟨x, y, z, hm, rfl, rfl, rfl⟩
      exact hm
    · intro hm
      exact ⟨"public", n, a, hm, rfl, rfl, rfl⟩
  · intro n
    simp [resetStatements, List.mem_append, List.mem_map, List.mem_filter,
      Prod.ext_iff, and_assoc]
  · intro n
    simp [resetStatements, List.mem_append, List.mem_map, List.mem_filter,
      Prod.ext_iff, and_assoc]
    constructor
    · rintro ⟨x, y, z, hm, rfl, rfl, rfl⟩
      exact hm
    · intro hm
      exact ⟨"public", n, 'c', hm, rfl, rfl, rfl⟩
  · intro n
    simp [resetStatements, List.mem_append, List.mem_map, List.mem_filter,
      Prod.ext_iff, and_assoc]
    constructor
    · rintro ⟨x, y, z, hm, rfl, rfl, rfl⟩
      exact hm
    · intro hm
      exact ⟨"public", n, 'S', hm, rfl, rfl, rfl⟩
  · intro n
    simp [resetStatements, List.mem_append, List.mem_map, List.mem_filter,
      Prod.ext_iff, and_assoc]

/-- Witness for the C5 theorem at a concrete catalog snapshot. -/
theorem reset_script_structure_witness :
    (⟨ObjKind.schemaObj, "app", none, true⟩ : DropStmt)
        ∈ resetStatements
            ⟨["public", "information_schema", "pg_toast", "app"],
             [("public", "f", "integer"), ("other", "g", "")],
             [("public", "t")],
             [("public", "ct", 'c'), ("public", "et", 'e')],
             [("public", "sq", 'S'), ("public", "tb", 'r')],
             [("public", "v")]⟩
    ∧ (⟨ObjKind.compositeTypeObj, "ct", none, true⟩ : DropStmt)
        ∈ resetStatements
            ⟨["public", "information_schema", "pg_toast", "app"],
             [("public", "f", "integer"), ("other", "g", "")],
             [("public", "t")],
             [("public", "ct", 'c'), ("public", "et", 'e')],
             [("public", "sq", 'S'), ("public", "tb", 'r')],
             [("public", "v")]⟩ := by
  refine ⟨?_, ?_⟩
  · exact ((reset_script_structure _).2.2.1 "app").mpr (by decide)
  · exact ((reset_script_structure _).2.2.2.2.2.1 "ct").mpr (by decide)

/-! ## Orchestration (DumpAndRestoreSchema, schema.go:33-62)

The orchestrator shells out to external processes and touches the file
system; those effects are abstracted into a `World` that fixes the outcome
of every fallible operation (`none` = success, `some` = the diagnostic the
operation produces).  Each embedded function returns the Go function's
result (`Except` mirrors `error`) together with the trace of operations it
invoked, in invocation order; Go `defer`red cleanups appear in the trace at
the position where they run, i.e. when the function returns. -/

/-- The operations of a migration run that the trace records. -/
inductive Event
  | createTempDir
  | dumpInvoke
  | createDropScriptFile
  | dropPsqlInvoke
  | removeDropScriptFile
  | openDumpFile
  | createModifiedFile
  | processFileStep
  | restorePsqlInvoke
  | removeModifiedFile
  | removeTempDir
deriving DecidableEq

/-- Outcome of every fallible operation of a run.  External invocations
carry a pair (exit-status text, captured stderr) mirroring the
`fmt.Errorf("...: %v, stderr: %s", err, stderr)` sites; file-system
operations carry the single `%v` text. -/
structure World where
  mkdirErr : Option String
  dumpRunErr : Option (String × String)
  dropTmpErr : Option String
  dropWriteErr : Option String
  dropRunErr : Option (String × String)
  openErr : Option String
  createErr : Option String
  processErr : Option String
  reopenErr : Option String
  restoreRunErr : Option (String × String)

/-- The world in which every operation succeeds. -/
def allOk : World :=
  ⟨none, none, none, none, none, none, none, none, none, none⟩

/-- `dumpSchema` (schema.go:193-224): run `pg_dump`; on a non-zero exit
wrap the exit status and the captured stderr. -/
def dumpSchema (w : World) : Except String Unit × List Event :=
  match w.dumpRunErr with
  | some e => (.error ("pg_dump failed: " ++ e.1 ++ ", stderr: " ++ e.2),
      [Event.dumpInvoke])
  | none => (.ok (), [Event.dumpInvoke])

/-- `dropExistingObjects` (schema.go:65-175): write the drop script to a
temp file (removed via defer once created), then run `psql -f` on it. -/
def dropExistingObjects (w : World) : Except String Unit × List Event :=
  match w.dropTmpErr with
  | some e => (.error ("failed to create temp file for drop script: " ++ e),
      [Event.createDropScriptFile])
  | none =>
    match w.dropWriteErr with
    | some e => (.error ("failed to write drop script to temp file: " ++ e),
        [Event.createDropScriptFile, Event.removeDropScriptFile])
    | none =>
      match w.dropRunErr with
      | some e => (.error ("dropping objects failed: " ++ e.1 ++ ", stderr: " ++ e.2),
          [Event.createDropScriptFile, Event.dropPsqlInvoke,
           Event.removeDropScriptFile])
      | none => (.ok (),
          [Event.createDropScriptFile, Event.dropPsqlInvoke,
           Event.removeDropScriptFile])

/-- `restoreSchema` (schema.go:227-287): open the dump, create the
`.modified` file (removed via defer once created), rewrite into it with
`processSchemaFile`, reopen it and feed it to `psql` on stdin. -/
def restoreSchema (w : World) : Except String Unit × List Event :=
  match w.openErr with
  | some e => (.error ("failed to open dump file: " ++ e), [Event.openDumpFile])
  | none =>
    match w.createErr with
    | some e => (.error ("failed to create modified dump file: " ++ e),
        [Event.openDumpFile, Event.createModifiedFile])
    | none =>
      match w.processErr with
      | some e => (.error ("failed to process schema file: " ++ e),
          [Event.openDumpFile, Event.createModifiedFile, Event.processFileStep,
           Event.removeModifiedFile])
      | none =>
        match w.reopenErr with
        | some e => (.error ("failed to open modified dump file: " ++ e),
            [Event.openDumpFile, Event.createModifiedFile, Event.processFileStep,
             Event.removeModifiedFile])
        | none =>
          match w.restoreRunErr with
          | some e => (.error ("psql restore failed: " ++ e.1 ++ ", stderr: " ++ e.2),
              [Event.openDumpFile, Event.createModifiedFile, Event.processFileStep,
               Event.restorePsqlInvoke, Event.removeModifiedFile])
          | none => (.ok (),
              [Event.openDumpFile, Event.createModifiedFile, Event.processFileStep,
               Event.restorePsqlInvoke, Event.removeModifiedFile])

/-- `DumpAndRestoreSchema` (schema.go:33-62): create the temp dump
directory (removed via defer on every later path), dump, drop existing
objects in the target, restore; each failing step's error is wrapped and
returned at once. -/
def DumpAndRestoreSchema (w : World) : Except String Unit × List Event :=
  match w.mkdirErr with
  | some e => (.error ("failed to create temp directory: " ++ e), [])
  | none =>
    let inner : Except String Unit × List Event :=
      match dumpSchema w with
      | (.error e, evs) => (.error ("failed to dump schema: " ++ e), evs)
      | (.ok _, evs) =>
        match dropExistingObjects w with
        | (.error e, evs2) =>
            (.error ("failed to drop existing objects: " ++ e), evs ++ evs2)
        | (.ok _, evs2) =>
          match restoreSchema w with
          | (.error e, evs3) =>
              (.error ("failed to restore schema: " ++ e), evs ++ evs2 ++ evs3)
          | (.ok _, evs3) => (.ok (), evs ++ evs2 ++ evs3)
    (inner.1, Event.createTempDir :: inner.2 ++ [Event.removeTempDir])

/-- C3 (counterexample): on a fully successful run both the rewrite and
the destructive reset occur, but the reset's `psql` invocation comes
BEFORE the rewrite of the dump output, contradicting the claimed order
Dumper → Rewriter → Resetter → Restorer (the rewrite happens inside the
restore step, after `dropExistingObjects`). -/
theorem orchestration_order_cex :
    Event.processFileStep ∈ (DumpAndRestoreSchema allOk).2
    ∧ Event.dropPsqlInvoke ∈ (DumpAndRestoreSchema allOk).2
    ∧ ¬ ((DumpAndRestoreSchema allOk).2.indexOf Event.processFileStep
          < (DumpAndRestoreSchema allOk).2.indexOf Event.dropPsqlInvoke) := by
  decide

/-- C3 (amended): the four steps run strictly sequentially in the order
Dumper, then Destructive Resetter, then Idempotency Rewriter, then
Restorer — in every world the executed main steps, in trace order, form a
prefix of [dump, reset, rewrite, restore]; on a fully successful run the
complete trace is the canonical one, ending with the restore invocation
followed only by the deferred cleanups. -/
theorem orchestration_sequential_amended :
    (∀ w : World,
        ((DumpAndRestoreSchema w).2.filter
            (fun e => e == Event.dumpInvoke || e == Event.dropPsqlInvoke
              || e == Event.processFileStep || e == Event.restorePsqlInvoke))
          <+: [Event.dumpInvoke, Event.dropPsqlInvoke, Event.processFileStep,
               Event.restorePsqlInvoke])
    ∧ (DumpAndRestoreSchema allOk).2
        = [Event.createTempDir, Event.dumpInvoke, Event.createDropScriptFile,
           Event.dropPsqlInvoke, Event.removeDropScriptFile,
           Event.openDumpFile, Event.createModifiedFile, Event.processFileStep,
           Event.restorePsqlInvoke, Event.removeModifiedFile,
           Event.removeTempDir] := by
  refine ⟨fun w => ?_, by decide⟩
  obtain ⟨m, du, dt, dw, dr, o, c, p, ro, rs⟩ := w
  cases m with
  | some e =>
    simp only [DumpAndRestoreSchema, dumpSchema, dropExistingObjects, restoreSchema]
    decide
  | none =>
  cases du with
  | some e =>
    simp only [DumpAndRestoreSchema, dumpSchema, dropExistingObjects, restoreSchema]
    decide
  | none =>
  cases dt with
  | some e =>
    simp only [DumpAndRestoreSchema, dumpSchema, dropExistingObjects, restoreSchema]
    decide
  | none =>
  cases dw with
  | some e =>
    simp only [DumpAndRestoreSchema, dumpSchema, dropExistingObjects, restoreSchema]
    decide
  | none =>
  cases dr with
  | some e =>
    simp only [DumpAndRestoreSchema, dumpSchema, dropExistingObjects, restoreSchema]
    decide
  | none =>
  cases o with
  | some e =>
    simp only [DumpAndRestoreSchema, dumpSchema, dropExistingObjects, restoreSchema]
    decide
  | none =>
  cases c with
  | some e =>
    simp only [DumpAndRestoreSchema, dumpSchema, dropExistingObjects, restoreSchema]
    decide
  | none =>
  cases p with
  | some e =>
    simp only [DumpAndRestoreSchema, dumpSchema, dropExistingObjects, restoreSchema]
    decide
  | none =>
  cases ro with
  | some e =>
    simp only [DumpAndRestoreSchema, dumpSchema, dropExistingObjects, restoreSchema]
    decide
  | none =>
  cases rs with
  | some e =>
    simp only [DumpAndRestoreSchema, dumpSchema, dropExistingObjects, restoreSchema]
    decide
  | none =>
    simp only [DumpAndRestoreSchema, dumpSchema, dropExistingObjects, restoreSchema]
    decide

/-- C4: a failing step aborts the orchestrator at once with a wrapped
error naming the failing step and carrying the captured diagnostics; no
later step is attempted (a dump failure prevents both the destructive
reset and the restore; a reset failure prevents the restore), and no step
is ever retried (the trace has no duplicate events). -/
theorem failure_aborts_and_wraps :
    (∀ (w : World) (ex st : String),
        w.mkdirErr = none → w.dumpRunErr = some (ex, st) →
        (DumpAndRestoreSchema w).1
          = .error ("failed to dump schema: "
              ++ ("pg_dump failed: " ++ ex ++ ", stderr: " ++ st))
        ∧ Event.createDropScriptFile ∉ (DumpAndRestoreSchema w).2
        ∧ Event.dropPsqlInvoke ∉ (DumpAndRestoreSchema w).2
        ∧ Event.processFileStep ∉ (DumpAndRestoreSchema w).2
        ∧ Event.restorePsqlInvoke ∉ (DumpAndRestoreSchema w).2)
    ∧ (∀ (w : World) (ex st : String),
        w.mkdirErr = none → w.dumpRunErr = none → w.dropTmpErr = none →
        w.dropWriteErr = none → w.dropRunErr = some (ex, st) →
        (DumpAndRestoreSchema w).1
          = .error ("failed to drop existing objects: "
              ++ ("dropping objects failed: " ++ ex ++ ", stderr: " ++ st))
        ∧ Event.openDumpFile ∉ (DumpAndRestoreSchema w).2
        ∧ Event.processFileStep ∉ (DumpAndRestoreSchema w).2
        ∧ Event.restorePsqlInvoke ∉ (DumpAndRestoreSchema w).2)
    ∧ (∀ (w : World) (ex st : String),
        w.mkdirErr = none → w.dumpRunErr = none → w.dropTmpErr = none →
        w.dropWriteErr = none → w.dropRunErr = none → w.openErr = none →
        w.createErr = none → w.processErr = none → w.reopenErr = none →
        w.restoreRunErr = some (ex, st) →
        (DumpAndRestoreSchema w).1
          = .error ("failed to restore schema: "
              ++ ("psql restore failed: " ++ ex ++ ", stderr: " ++ st)))
    ∧ (∀ w : World, (DumpAndRestoreSchema w).2.Nodup) := by
  refine ⟨?_, ?_, ?_, ?_⟩
  · intro w ex st hm hd
    obtain ⟨m, du, dt, dw, dr, o, c, p, ro, rs⟩ := w
    dsimp only at hm hd
    subst hm; subst hd
    simp only [DumpAndRestoreSchema, dumpSchema, dropExistingObjects,
      restoreSchema]
    refine ⟨by trivial, ?_, ?_, ?_, ?_⟩ <;> decide
  · intro w ex st hm hdu hdt hdw hdr
    obtain ⟨m, du, dt, dw, dr, o, c, p, ro, rs⟩ := w
    dsimp only at hm hdu hdt hdw hdr
    subst hm; subst hdu; subst hdt; subst hdw; subst hdr
    simp only [DumpAndRestoreSchema, dumpSchema, dropExistingObjects,
      restoreSchema]
    refine ⟨by trivial, ?_, ?_, ?_⟩ <;> decide
  · intro w ex st hm hdu hdt hdw hdr ho hc hp hro hrs
    obtain ⟨m, du, dt, dw, dr, o, c, p, ro, rs⟩ := w
    dsimp only at hm hdu hdt hdw hdr ho hc hp hro hrs
    subst hm; subst hdu; subst hdt; subst hdw; subst hdr
    subst ho; subst hc; subst hp; subst hro; subst hrs
    rfl
  · intro w
    obtain ⟨m, du, dt, dw, dr, o, c, p, ro, rs⟩ := w
    cases m with
    | some e =>
      simp only [DumpAndRestoreSchema, dumpSchema, dropExistingObjects,
        restoreSchema]
      decide
    | none =>
    cases du with
    | some e =>
      simp only [DumpAndRestoreSchema, dumpSchema, dropExistingObjects,
        restoreSchema]
      decide
    | none =>
    cases dt with
    | some e =>
      simp only [DumpAndRestoreSchema, dumpSchema, dropExistingObjects,
        restoreSchema]
      decide
    | none =>
    cases dw with
    | some e =>
      simp only [DumpAndRestoreSchema, dumpSchema, dropExistingObjects,
        restoreSchema]
      decide
    | none =>
    cases dr with
    | some e =>
      simp only [DumpAndRestoreSchema, dumpSchema, dropExistingObjects,
        restoreSchema]
      decide
    | none =>
    cases o with
    | some e =>
      simp only [DumpAndRestoreSchema, dumpSchema, dropExistingObjects,
        restoreSchema]
      decide
    | none =>
    cases c with
    | some e =>
      simp only [DumpAndRestoreSchema, dumpSchema, dropExistingObjects,
        restoreSchema]
      decide
    | none =>
    cases p with
    | some e =>
      simp only [DumpAndRestoreSchema, dumpSchema, dropExistingObjects,
        restoreSchema]
      decide
    | none =>
    cases ro with
    | some e =>
      simp only [DumpAndRestoreSchema, dumpSchema, dropExistingObjects,
        restoreSchema]
      decide
    | none =>
    cases rs with
    | some e =>
      simp only [DumpAndRestoreSchema, dumpSchema, dropExistingObjects,
        restoreSchema]
      decide
    | none =>
      simp only [DumpAndRestoreSchema, dumpSchema, dropExistingObjects,
        restoreSchema]
      decide

/-- Witness for the C4 theorem: a dump failure at a concrete world
surfaces the wrapped dump error and the reset invocation never happens. -/
theorem failure_aborts_and_wraps_witness :
    (DumpAndRestoreSchema
        { allOk with dumpRunErr := some ("exit status 2", "could not connect") }).1
      = .error ("failed to dump schema: "
          ++ ("pg_dump failed: " ++ "exit status 2" ++ ", stderr: "
              ++ "could not connect"))
    ∧ Event.dropPsqlInvoke ∉ (DumpAndRestoreSchema
        { allOk with dumpRunErr := some ("exit status 2", "could not connect") }).2 := by
  have h := failure_aborts_and_wraps.1
    { allOk with dumpRunErr := some ("exit status 2", "could not connect") }
    "exit status 2" "could not connect" rfl rfl
  exact ⟨h.1, h.2.2.1⟩

/-- C9: the scoped temporary storage is released on every exit path: once
the temp dump directory is created its removal is the final action of the
orchestrator on every path, and once the `.modified` file is created it is
removed before the restore step (and hence the orchestration) returns,
success or failure. -/
theorem temp_storage_released :
    (∀ w : World, w.mkdirErr = none →
        (DumpAndRestoreSchema w).2.getLast? = some Event.removeTempDir)
    ∧ (∀ w : World, w.openErr = none → w.createErr = none →
        Event.removeModifiedFile ∈ (restoreSchema w).2)
    ∧ (∀ w : World, w.mkdirErr = none → w.dumpRunErr = none →
        w.dropTmpErr = none → w.dropWriteErr = none → w.dropRunErr = none →
        w.openErr = none → w.createErr = none →
        Event.removeModifiedFile ∈ (DumpAndRestoreSchema w).2) := by
  refine ⟨?_, ?_, ?_⟩
  · intro w hm
    obtain ⟨m, du, dt, dw, dr, o, c, p, ro, rs⟩ := w
    dsimp only at hm
    subst hm
    cases du with
    | some e =>
      simp only [DumpAndRestoreSchema, dumpSchema, dropExistingObjects,
        restoreSchema]
      decide
    | none =>
    cases dt with
    | some e =>
      simp only [DumpAndRestoreSchema, dumpSchema, dropExistingObjects,
        restoreSchema]
      decide
    | none =>
    cases dw with
    | some e =>
      simp only [DumpAndRestoreSchema, dumpSchema, dropExistingObjects,
        restoreSchema]
      decide
    | none =>
    cases dr with
    | some e =>
      simp only [DumpAndRestoreSchema, dumpSchema, dropExistingObjects,
        restoreSchema]
      decide
    | none =>
    cases o with
    | some e =>
      simp only [DumpAndRestoreSchema, dumpSchema, dropExistingObjects,
        restoreSchema]
      decide
    | none =>
    cases c with
    | some e =>
      simp only [DumpAndRestoreSchema, dumpSchema, dropExistingObjects,
        restoreSchema]
      decide
    | none =>
    cases p with
    | some e =>
      simp only [DumpAndRestoreSchema, dumpSchema, dropExistingObjects,
        restoreSchema]
      decide
    | none =>
    cases ro with
    | some e =>
      simp only [DumpAndRestoreSchema, dumpSchema, dropExistingObjects,
        restoreSchema]
      decide
    | none =>
    cases rs with
    | some e =>
      simp only [DumpAndRestoreSchema, dumpSchema, dropExistingObjects,
        restoreSchema]
      decide
    | none =>
      simp only [DumpAndRestoreSchema, dumpSchema, dropExistingObjects,
        restoreSchema]
      decide
  · intro w ho hc
    obtain ⟨m, du, dt, dw, dr, o, c, p, ro, rs⟩ := w
    dsimp only at ho hc
    subst ho; subst hc
    cases p with
    | some e =>
      simp only [restoreSchema]
      decide
    | none =>
    cases ro with
    | some e =>
      simp only [restoreSchema]
      decide
    | none =>
    cases rs with
    | some e =>
      simp only [restoreSchema]
      decide
    | none =>
      simp only [restoreSchema]
      decide
  · intro w hm hdu hdt hdw hdr ho hc
    obtain ⟨m, du, dt, dw, dr, o, c, p, ro, rs⟩ := w
    dsimp only at hm hdu hdt hdw hdr ho hc
    subst hm; subst hdu; subst hdt; subst hdw; subst hdr; subst ho; subst hc
    cases p with
    | some e =>
      simp only [DumpAndRestoreSchema, dumpSchema, dropExistingObjects,
        restoreSchema]
      decide
    | none =>
    cases ro with
    | some e =>
      simp only [DumpAndRestoreSchema, dumpSchema, dropExistingObjects,
        restoreSchema]
      decide
    | none =>
    cases rs with
    | some e =>
      simp only [DumpAndRestoreSchema, dumpSchema, dropExistingObjects,
        restoreSchema]
      decide
    | none =>
      simp only [DumpAndRestoreSchema, dumpSchema, dropExistingObjects,
        restoreSchema]
      decide

/-- Witness for the C9 theorem at the fully successful world. -/
theorem temp_storage_released_witness :
    (DumpAndRestoreSchema allOk).2.getLast? = some Event.removeTempDir
    ∧ Event.removeModifiedFile ∈ (restoreSchema allOk).2
    ∧ Event.removeModifiedFile ∈ (DumpAndRestoreSchema allOk).2 :=
  ⟨temp_storage_released.1 allOk rfl,
   temp_storage_released.2.1 allOk rfl rfl,
   temp_storage_released.2.2 allOk rfl rfl rfl rfl rfl rfl rfl⟩

end PgMigration
